import Mathlib

/-!
Shallow embedding of the observability / chaos-injection core of
`observable-nodejs-app`, together with theorems checking the
specification's claims against it.

Embedded modules:
* `src/config/metrics.js` — dual-registry recording functions
  (`recordHttpRequest`, `recordDatabaseQuery`, `recordError`,
  `getExemplarLabels`).
* `src/services/chaosService.js` — the chaos engine (`ChaosService`).
* `src/controllers/chaosController.js` — the HTTP-facing chaos
  configuration endpoints.
* `src/middleware/errorHandler.js` — the terminal error handler.

JavaScript numbers are modelled by `JSNum` (NaN and the two infinities
are explicit constructors, finite values are rationals); dynamically
typed arguments by `JSVal`.  Object fields that may be `undefined` are
modelled with `Option`.  The in-place mutation of the per-service chaos
config objects (shared between the `Map` and snapshots returned by
`getStatus`) is modelled with an explicit heap of config records
addressed by numeric references.
-/

/-- A JavaScript `number`: NaN, ±Infinity, or a finite value (modelled
as a rational). -/
inductive JSNum where
  | nan
  | inf
  | ninf
  | num (q : ℚ)
deriving DecidableEq

namespace JSNum

/-- Model of `isNaN(x)` on a JS number. -/
def isNaNb : JSNum → Bool
  | .nan => true
  | _ => false

/-- Model of `Number.isFinite(x)` on a JS number. -/
def isFiniteb : JSNum → Bool
  | .num _ => true
  | _ => false

/-- The JS comparison `x < 0` (false for NaN). -/
def ltZero : JSNum → Bool
  | .nan => false
  | .inf => false
  | .ninf => true
  | .num q => decide (q < 0)

end JSNum

/-- A dynamically typed JavaScript value, as far as the recording
functions inspect one (`typeof x`, `isNaN`, `<`). -/
inductive JSVal where
  | num (n : JSNum)
  | str (s : String)
  | undef
  | nullVal
  | boolVal (b : Bool)
deriving DecidableEq

/-- The active OpenTelemetry span context, as read through
`trace.getSpan(context.active()).spanContext()`. -/
structure TraceContext where
  traceId : String
  spanId : String
deriving DecidableEq

/-- Model of `getExemplarLabels` from `src/config/metrics.js`: the
`{traceId, spanId}` pair of the active span, or `undefined` when no
span is active. -/
def getExemplarLabels (ctx : Option TraceContext) : Option (String × String) :=
  ctx.map (fun c => (c.traceId, c.spanId))

/-- The label set attached to one metric observation (the three metric
families the recording functions write). -/
inductive LabelSet where
  | http (method route : String) (statusCode : JSVal)
  | db (operation table : String)
  | appError (errorType route : String)
deriving DecidableEq

/-- One observation written into a registry: metric name, labels,
observed/incremented value, and the optional exemplar labels. -/
structure Obs where
  metric : String
  labels : LabelSet
  value : JSVal
  exemplar : Option (String × String)
deriving DecidableEq

/-- The two metric registries of `src/config/metrics.js`:
`registryA` is the OpenTelemetry meter (Prometheus exporter, port
9464), `registryB` the custom prom-client registry.  Each is the list
of observations recorded so far, in order. -/
structure MetricsState where
  registryA : List Obs
  registryB : List Obs
deriving DecidableEq

/-- Empty registries. -/
def emptyMetrics : MetricsState := ⟨[], []⟩

/-- The `duration` validation of `recordHttpRequest`:
`typeof duration !== 'number' || isNaN(duration) || duration < 0`
(negated: valid durations are non-NaN numbers not `< 0`; note that
`Infinity` passes). -/
def validDuration : JSVal → Bool
  | .num n => !n.isNaNb && !n.ltZero
  | _ => false

/-- The `statusCode` validation of `recordHttpRequest`:
`typeof statusCode !== 'number' || isNaN(statusCode)` (negated; note
that non-integers and infinities pass). -/
def validStatusCode : JSVal → Bool
  | .num n => !n.isNaNb
  | _ => false

/-- Model of `recordHttpRequest(method, route, statusCode, duration)` from
`src/config/metrics.js`.  Invalid inputs return without writing;
otherwise a histogram observation and a counter increment are appended
to both registries, with exemplar labels only on the custom-registry
writes and only when a span is active. -/
def recordHttpRequest (ctx : Option TraceContext) (st : MetricsState)
    (method route : String) (statusCode duration : JSVal) : MetricsState :=
  if !validDuration duration then st
  else if !validStatusCode statusCode then st
  else
    let routePath := if route = "" then "unknown" else route
    let methodStr := if method = "" then "UNKNOWN" else method
    let labels := LabelSet.http methodStr routePath statusCode
    let exemplarLabels := getExemplarLabels ctx
    { registryA := st.registryA ++
        [⟨"http_request_duration_seconds", labels, duration, none⟩,
         ⟨"http_requests_total", labels, .num (.num 1), none⟩]
    , registryB := st.registryB ++
        [⟨"http_request_duration_seconds_custom", labels, duration, exemplarLabels⟩,
         ⟨"http_requests_total_custom", labels, .num (.num 1), exemplarLabels⟩] }

/-- Model of `recordDatabaseQuery(operation, table, duration)` from
`src/config/metrics.js`: no input validation; one histogram observation
into each registry, exemplar only on the custom one and only when a
span is active. -/
def recordDatabaseQuery (ctx : Option TraceContext) (st : MetricsState)
    (operation table : String) (duration : JSVal) : MetricsState :=
  let labels := LabelSet.db operation table
  let exemplarLabels := getExemplarLabels ctx
  { registryA := st.registryA ++
      [⟨"database_query_duration_seconds", labels, duration, none⟩]
  , registryB := st.registryB ++
      [⟨"database_query_duration_seconds_custom", labels, duration, exemplarLabels⟩] }

/-- Model of `recordError(errorType, route)` from `src/config/metrics.js`: only
the custom (prom-client) error counter exists; one increment into the
custom registry, with an exemplar exactly when a span is active. -/
def recordError (ctx : Option TraceContext) (st : MetricsState)
    (errorType route : String) : MetricsState :=
  let labels := LabelSet.appError errorType route
  let exemplarLabels := getExemplarLabels ctx
  { registryA := st.registryA
  , registryB := st.registryB ++
      [⟨"application_errors_total", labels, .num (.num 1), exemplarLabels⟩] }

/-- The observations a call appended to a registry list. -/
def newObs (old new : List Obs) : List Obs := new.drop old.length

/-- One per-service chaos configuration object (a JS object literal):
fields set by `configureLatency` / `configureFailureRate` may be
absent (`undefined`) on objects freshly created by the other setter,
hence the `Option` fields.  `enabled` is written by every setter and
by the constructor, so it is always defined. -/
structure ServiceConfig where
  latency : Option ℚ
  failureRate : Option ℚ
  enabled : Bool
deriving DecidableEq

/-- Placeholder used for out-of-range heap reads (never reached from
states whose references are in range). -/
def defaultConfig : ServiceConfig := ⟨none, none, false⟩

/-- The mutable state of the `ChaosService` singleton
(`src/services/chaosService.js`).  JS objects stored in
`this.config` are shared by reference with any snapshot returned by
`getStatus`, so the map `config` holds references (indices) into a
`heap` of config objects; in-place field mutation is `heap.set`.
`activeLeakTimers` are the ids of currently running `setInterval`
memory-leak timers, `memoryLeakInterval` the handle field
`this.memoryLeakInterval`. -/
structure ChaosState where
  config : List (String × ℕ)
  heap : List ServiceConfig
  memoryLeakInterval : Option ℕ
  activeLeakTimers : List ℕ
  nextTimerId : ℕ
deriving DecidableEq

/-- Association-list lookup, modelling `Map.prototype.get`. -/
def alookup {α : Type} : List (String × α) → String → Option α
  | [], _ => none
  | (k, v) :: t, s => if k = s then some v else alookup t s

/-- The constructor of `ChaosService`: `database` and `api` start with
`{latency: 0, failureRate: 0, enabled: false}` and no leak timer. -/
def initialChaosState : ChaosState :=
  { config := [("database", 0), ("api", 1)]
  , heap := [⟨some 0, some 0, false⟩, ⟨some 0, some 0, false⟩]
  , memoryLeakInterval := none
  , activeLeakTimers := []
  , nextTimerId := 0 }

/-- The config object a service name currently denotes, read through
the reference map (what `this.config.get(service)` returns). -/
def cfgView (st : ChaosState) (service : String) : Option ServiceConfig :=
  (alookup st.config service).map (fun r => st.heap.getD r defaultConfig)

/-- Model of `ChaosService.configureLatency(service, duration, enabled)`:
mutates the existing config object in place (reference unchanged), or
creates a fresh object `{latency, enabled}` (no `failureRate` field)
for an unknown service. -/
def configureLatency (st : ChaosState) (service : String) (duration : ℚ)
    (enabled : Bool) : ChaosState :=
  match alookup st.config service with
  | some r =>
      let config := st.heap.getD r defaultConfig
      { st with heap := st.heap.set r { config with latency := some duration, enabled := enabled } }
  | none =>
      { st with
          heap := st.heap ++ [⟨some duration, none, enabled⟩]
        , config := st.config ++ [(service, st.heap.length)] }

/-- Model of `ChaosService.configureFailureRate(service, rate, enabled)`:
mutates the existing config object in place, or creates a fresh object
`{failureRate, enabled}` (no `latency` field) for an unknown service.
No range check happens here — that lives in the controller. -/
def configureFailureRate (st : ChaosState) (service : String) (rate : ℚ)
    (enabled : Bool) : ChaosState :=
  match alookup st.config service with
  | some r =>
      let config := st.heap.getD r defaultConfig
      { st with heap := st.heap.set r { config with failureRate := some rate, enabled := enabled } }
  | none =>
      { st with
          heap := st.heap ++ [⟨none, some rate, enabled⟩]
        , config := st.config ++ [(service, st.heap.length)] }

/-- JS `a || b` on the pair (override duration, configured latency):
`undefined` and `0` are falsy. -/
def jsOrDuration (override : Option ℚ) (latency : Option ℚ) : Option ℚ :=
  match override with
  | some d => if d = 0 then latency else some d
  | none => latency

/-- Model of `ChaosService.injectLatency(service, duration)`.  Result `none`
means the early `return` (no delay at all); `some v` means the call
awaited `setTimeout(resolve, v)` where `v` is the JS value
`duration || config.latency` (itself possibly `undefined`).  The early
return fires when the service is unknown, `!config.enabled`, or
`config.latency === 0`. -/
def injectLatency (st : ChaosState) (service : String)
    (duration : Option ℚ) : Option (Option ℚ) :=
  match alookup st.config service with
  | none => none
  | some r =>
      let config := st.heap.getD r defaultConfig
      if !config.enabled then none
      else if config.latency = some 0 then none
      else some (jsOrDuration duration config.latency)

/-- The JS comparison `r < fr` where `fr` may be `undefined`
(comparison with `undefined` is false). -/
def jsLtOpt (r : ℚ) : Option ℚ → Bool
  | some fr => decide (r < fr)
  | none => false

/-- Model of `ChaosService.injectRandomFailure(service)`, with the draw of
`Math.random()` passed in as `r`.  Returns `false` when the service is
unknown, `!config.enabled`, or `config.failureRate === 0`; otherwise
returns `Math.random() < config.failureRate`. -/
def injectRandomFailure (st : ChaosState) (service : String) (r : ℚ) : Bool :=
  match alookup st.config service with
  | none => false
  | some ref =>
      let config := st.heap.getD ref defaultConfig
      if !config.enabled then false
      else if config.failureRate = some 0 then false
      else jsLtOpt r config.failureRate

/-- The synchronous part of `ChaosService.simulateMemoryLeak`: a fresh
`setInterval` timer is started and its handle overwrites
`this.memoryLeakInterval`; nothing clears any previously running
timer. -/
def simulateMemoryLeak (st : ChaosState) : ChaosState :=
  { st with
      memoryLeakInterval := some st.nextTimerId
    , activeLeakTimers := st.activeLeakTimers ++ [st.nextTimerId]
    , nextTimerId := st.nextTimerId + 1 }

/-- The deferred `setTimeout` body of `simulateMemoryLeak`: it runs
`clearInterval(this.memoryLeakInterval)` — i.e. it cancels whichever
timer the handle points at WHEN THE TIMEOUT FIRES, not the one its own
call started. -/
def fireLeakTimeout (st : ChaosState) : ChaosState :=
  match st.memoryLeakInterval with
  | some id => { st with activeLeakTimers := st.activeLeakTimers.filter (· ≠ id) }
  | none => st

/-- Model of `ChaosService.disableAllChaos()`: zeroes every configured service's
fields in place and `clearInterval`s the current leak handle (the
handle field itself is not nulled). -/
def disableAllChaos (st : ChaosState) : ChaosState :=
  let heap' := st.config.foldl (fun h p => h.set p.2 ⟨some 0, some 0, false⟩) st.heap
  let timers' :=
    match st.memoryLeakInterval with
    | some id => st.activeLeakTimers.filter (· ≠ id)
    | none => st.activeLeakTimers
  { st with heap := heap', activeLeakTimers := timers' }

/-- Model of `ChaosService.getStatus()`: `Object.fromEntries(this.config)` — a
fresh top-level object holding the same `(name, config-object)` pairs;
the config objects themselves are shared (references copied). -/
def getStatus (st : ChaosState) : List (String × ℕ) := st.config

/-- What a previously returned status object shows when its entries are
read later: each shared reference dereferenced in the current heap. -/
def statusView (snapshot : List (String × ℕ)) (heap : List ServiceConfig) :
    List (String × ServiceConfig) :=
  snapshot.map (fun p => (p.1, heap.getD p.2 defaultConfig))

/-- Model of the fixed error table of `ChaosService.simulateDatabaseError`:
the own properties of the `errors` object literal, canned errors by
type. -/
def dbErrorTable : List (String × String) :=
  [ ("CONNECTION_ERROR", "ECONNREFUSED: Connection refused")
  , ("TIMEOUT", "ETIMEDOUT: Query timeout")
  , ("DEADLOCK", "Deadlock detected")
  , ("CONSTRAINT_VIOLATION", "Unique constraint violation") ]

/-- Member names every JS object literal inherits from
`Object.prototype`: for these names the property access
`errors[errorType]` yields a truthy inherited value (a function, or
the prototype object itself for the `__proto__` accessor) even though
the name is not an entry of the table. -/
def objectPrototypeProps : List String :=
  [ "constructor", "hasOwnProperty", "isPrototypeOf", "propertyIsEnumerable"
  , "toLocaleString", "toString", "valueOf", "__defineGetter__"
  , "__defineSetter__", "__lookupGetter__", "__lookupSetter__", "__proto__" ]

/-- A value thrown by `simulateDatabaseError`: either a proper
`new Error(message)` (a canned table entry or the generic default), or
a truthy member inherited from `Object.prototype` — which is what
`errors[errorType] ||` picks up when `errorType` is a prototype member
name. -/
inductive ThrownValue where
  | errObj (message : String)
  | inheritedProp (name : String)
deriving DecidableEq

/-- Model of `ChaosService.simulateDatabaseError(errorType)`; it always
throws.  The JS property access `errors[errorType]` consults the
object's own properties (the canned table) and then its prototype
chain, so for `Object.prototype` member names the truthy inherited
member is the looked-up value and gets thrown; only when the access
yields `undefined` does `|| new Error('Unknown database error')`
supply the generic error. -/
def simulateDatabaseError (errorType : String) : Except ThrownValue Unit :=
  match alookup dbErrorTable errorType with
  | some msg => Except.error (ThrownValue.errObj msg)
  | none =>
      if errorType ∈ objectPrototypeProps then
        Except.error (ThrownValue.inheritedProp errorType)
      else Except.error (ThrownValue.errObj "Unknown database error")

/-- A parsed request body for the chaos configuration endpoints
(`src/controllers/chaosController.js`); absent fields are `none`. -/
structure ChaosBody where
  service : Option String
  duration : Option ℚ
  probability : Option ℚ
  enabled : Option Bool
deriving DecidableEq

/-- A request body with no fields (`{}`). -/
def emptyBody : ChaosBody := ⟨none, none, none, none⟩

/-- Model of `ChaosController.configureLatency`: destructures the body with
defaults `service='database'`, `duration=1000`, `enabled=true`, then
stores the policy and answers 200. -/
def configureLatencyEndpoint (body : ChaosBody) (st : ChaosState) :
    ℕ × ChaosState :=
  let service := body.service.getD "database"
  let duration := body.duration.getD 1000
  let enabled := body.enabled.getD true
  (200, configureLatency st service duration enabled)

/-- Model of `ChaosController.configureRandomFailure`: destructures the body
with defaults `service='database'`, `probability=0.5`, `enabled=true`;
answers 400 without touching the service when
`probability < 0 || probability > 1`, otherwise stores the policy and
answers 200. -/
def configureRandomFailureEndpoint (body : ChaosBody) (st : ChaosState) :
    ℕ × ChaosState :=
  let service := body.service.getD "database"
  let probability := body.probability.getD (1/2)
  let enabled := body.enabled.getD true
  if probability < 0 ∨ probability > 1 then (400, st)
  else (200, configureFailureRate st service probability enabled)

/-- An error object as inspected by the terminal error handler
(`src/middleware/errorHandler.js`): `message` may be the empty string
(falsy), the numeric status fields and `code` may be absent. -/
structure ErrObj where
  name : Option String
  message : String
  stack : String
  statusCode : Option ℕ
  status : Option ℕ
  code : Option String
deriving DecidableEq

/-- A JS truthiness filter on an optional natural: `some 0` is falsy
(`0 || b` falls through to `b`). -/
def truthyNat : Option ℕ → Option ℕ
  | some n => if n = 0 then none else some n
  | none => none

/-- A JS truthiness filter on an optional string: `some ""` is falsy. -/
def truthyStr : Option String → Option String
  | some s => if s = "" then none else some s
  | none => none

/-- The client-facing response assembled by `errorHandler`. -/
structure ErrorResponse where
  status : ℕ
  success : Bool
  message : String
  code : Option String
  stack : Option String
deriving DecidableEq

/-- Model of `errorHandler(err, req, res, next)` from
`src/middleware/errorHandler.js`, restricted to what it sends to the
client: status `err.statusCode || err.status || 500`, body
`{success:false, message: err.message || 'Internal Server Error'}`,
plus `stack` exactly when `NODE_ENV === 'development'` and `code`
exactly when `err.code` is truthy.  (The span/logging/`recordError`
effects are covered by the recording-function model.) -/
def errorHandler (env : String) (err : ErrObj) : ErrorResponse :=
  let statusCode := ((truthyNat err.statusCode).getD ((truthyNat err.status).getD 500))
  { status := statusCode
  , success := false
  , message := if err.message = "" then "Internal Server Error" else err.message
  , stack := if env = "development" then some err.stack else none
  , code := truthyStr err.code }

/-- The error-type label `errorHandler` passes to `recordError`:
`err.name || 'UnknownError'`. -/
def errorTypeLabel (err : ErrObj) : String :=
  (truthyStr err.name).getD "UnknownError"

/-- Appending to a list and dropping its old length yields exactly the
appended part (the new observations of a recording call). -/
theorem newObs_append (old l : List Obs) : newObs old (old ++ l) = l :=
  List.drop_left old l

/-- A successful association-list lookup comes from a member pair. -/
theorem alookup_mem {α : Type} {l : List (String × α)} {s : String} {v : α}
    (h : alookup l s = some v) : (s, v) ∈ l := by
  induction l with
  | nil => simp [alookup] at h
  | cons hd tl ih =>
      obtain ⟨k, w⟩ := hd
      by_cases hk : k = s
      · subst hk
        simp [alookup] at h
        subst h
        exact List.mem_cons_self _ _
      · simp only [alookup] at h
        rw [if_neg hk] at h
        exact List.mem_cons_of_mem _ (ih h)

/-- Lookup distributes over appending when the key is absent from the
first list. -/
theorem alookup_append_of_none {α : Type} {l : List (String × α)} (m : List (String × α))
    {s : String} (h : alookup l s = none) : alookup (l ++ m) s = alookup m s := by
  induction l with
  | nil => simp
  | cons hd tl ih =>
      by_cases hk : hd.1 = s
      · simp [alookup, hk] at h
      · simp only [alookup] at h ⊢
        rw [if_neg (by simpa using hk)] at h ⊢
        exact ih h

/-- Lookup through a value-wise mapped association list. -/
theorem alookup_map {α β : Type} (f : α → β) (l : List (String × α)) (s : String) :
    alookup (l.map (fun p => (p.1, f p.2))) s = (alookup l s).map f := by
  induction l with
  | nil => simp [alookup]
  | cons hd tl ih =>
      by_cases hk : hd.1 = s
      · simp [alookup, hk]
      · simp only [List.map_cons, alookup]
        rw [if_neg (by simpa using hk), if_neg (by simpa using hk)]
        exact ih

/-- Reading back an in-range in-place update. -/
theorem getD_set_self {α : Type} (l : List α) (n : ℕ) (x d : α) (h : n < l.length) :
    (l.set n x).getD n d = x := by
  simp [List.getD_eq_getElem?_getD, List.getElem?_set_self, h]

/-- In-range reads are unaffected by appending. -/
theorem getD_append_left {α : Type} (l l' : List α) (n : ℕ) (d : α) (h : n < l.length) :
    (l ++ l').getD n d = l.getD n d := by
  simp [List.getD_eq_getElem?_getD, List.getElem?_append_left h]

/-- Reading the element just appended at the old length. -/
theorem getD_append_length {α : Type} (l : List α) (x d : α) :
    (l ++ [x]).getD l.length d = x := by
  simp [List.getD_eq_getElem?_getD]

/-- Reads at other in-place updates are unaffected. -/
theorem getD_set_ne {α : Type} (l : List α) (n m : ℕ) (x d : α) (h : n ≠ m) :
    (l.set n x).getD m d = l.getD m d := by
  simp [List.getD_eq_getElem?_getD, List.getElem?_set_ne h]

/-- Looking a service up in a later view of a snapshot dereferences the
snapshot's stored reference in the later heap. -/
theorem alookup_statusView (snapshot : List (String × ℕ)) (heap : List ServiceConfig)
    (s : String) :
    alookup (statusView snapshot heap) s
      = (alookup snapshot s).map (fun r => heap.getD r defaultConfig) := by
  unfold statusView
  exact alookup_map (fun r => heap.getD r defaultConfig) snapshot s

/-- C1: for every recording call (`recordHttpRequest` with valid
inputs, `recordDatabaseQuery`, `recordError`), every observation the
call appends to the custom registry (Registry B) carries exemplar
labels equal to `getExemplarLabels` of the active trace context —
`(traceId, spanId)` of the context when one is active, and no exemplar
when none is — while every observation appended to the OpenTelemetry
registry (Registry A) carries no exemplar (and `recordError` appends
none there at all). -/
theorem exemplar_presence_iff_active_trace_context
    (ctx : Option TraceContext) (st : MetricsState)
    (method route : String) (statusCode duration : JSVal)
    (operation table : String) (dbDuration : JSVal)
    (errorType errRoute : String)
    (hd : validDuration duration = true)
    (hs : validStatusCode statusCode = true) :
    ((newObs st.registryB
        (recordHttpRequest ctx st method route statusCode duration).registryB).map Obs.exemplar
          = [getExemplarLabels ctx, getExemplarLabels ctx]
      ∧ (newObs st.registryA
          (recordHttpRequest ctx st method route statusCode duration).registryA).map Obs.exemplar
          = [none, none])
    ∧ ((newObs st.registryB
          (recordDatabaseQuery ctx st operation table dbDuration).registryB).map Obs.exemplar
          = [getExemplarLabels ctx]
      ∧ (newObs st.registryA
          (recordDatabaseQuery ctx st operation table dbDuration).registryA).map Obs.exemplar
          = [none])
    ∧ ((newObs st.registryB
          (recordError ctx st errorType errRoute).registryB).map Obs.exemplar
          = [getExemplarLabels ctx]
      ∧ (recordError ctx st errorType errRoute).registryA = st.registryA)
    ∧ (∀ c, ctx = some c → getExemplarLabels ctx = some (c.traceId, c.spanId))
    ∧ (ctx = none → getExemplarLabels ctx = none) := by
  refine ⟨⟨?_, ?_⟩, ⟨?_, ?_⟩, ⟨?_, ?_⟩, ?_, ?_⟩ <;>
    simp [recordHttpRequest, recordDatabaseQuery, recordError, newObs, hd, hs,
      getExemplarLabels, List.drop_left]
  · rintro c rfl
    exact ⟨c, rfl, rfl, rfl⟩

/-- Witness for C1 at a concrete input: with an active context
`(trace-1, span-1)`, both custom-registry observations of a valid
`recordHttpRequest` call carry exactly that exemplar. -/
theorem exemplar_presence_iff_active_trace_context_witness :
    validDuration (JSVal.num (JSNum.num 0)) = true
    ∧ validStatusCode (JSVal.num (JSNum.num 200)) = true
    ∧ (newObs emptyMetrics.registryB
        (recordHttpRequest (some ⟨"trace-1", "span-1"⟩) emptyMetrics
          "GET" "/api/users/:id" (JSVal.num (JSNum.num 200))
          (JSVal.num (JSNum.num 0))).registryB).map Obs.exemplar
        = [some ("trace-1", "span-1"), some ("trace-1", "span-1")] := by
  refine ⟨by decide, by decide, ?_⟩
  have h := exemplar_presence_iff_active_trace_context
    (some ⟨"trace-1", "span-1"⟩) emptyMetrics
    "GET" "/api/users/:id" (JSVal.num (JSNum.num 200)) (JSVal.num (JSNum.num 0))
    "READ" "users" (JSVal.num (JSNum.num 0)) "ValidationError" "/api/users"
    (by decide) (by decide)
  simpa [getExemplarLabels] using h.1.1

/-- C2 (amended): `recordHttpRequest` performs zero writes to either
registry and does not throw (it is a total function returning the
unchanged state) exactly for the inputs its validation rejects — a
`duration` that is not a number, is NaN, or compares `< 0`, or a
`statusCode` that is not a number or is NaN.  (Non-finite durations
such as `Infinity` and non-integer or infinite status codes pass this
validation; see the counterexample.) -/
theorem record_http_request_noop_on_rejected_inputs
    (ctx : Option TraceContext) (st : MetricsState)
    (method route : String) (statusCode duration : JSVal)
    (h : validDuration duration = false ∨ validStatusCode statusCode = false) :
    recordHttpRequest ctx st method route statusCode duration = st := by
  unfold recordHttpRequest
  rcases h with h | h
  · simp [h]
  · cases hv : validDuration duration <;> simp [hv, h]

/-- Witness for C2's amended theorem: a NaN duration is rejected and
leaves both registries untouched. -/
theorem record_http_request_noop_on_rejected_inputs_witness :
    validDuration (JSVal.num JSNum.nan) = false
    ∧ recordHttpRequest none emptyMetrics "GET" "/api/users"
        (JSVal.num (JSNum.num 200)) (JSVal.num JSNum.nan) = emptyMetrics :=
  ⟨by decide,
   record_http_request_noop_on_rejected_inputs none emptyMetrics "GET" "/api/users"
     (JSVal.num (JSNum.num 200)) (JSVal.num JSNum.nan) (Or.inl (by decide))⟩

/-- Counterexample to C2 as stated: `Infinity` is not a finite number
(so the claim demands zero registry writes), yet
`recordHttpRequest('GET', '/api/users', 200, Infinity)` writes two
observations into each registry; likewise status code `3.5` is not an
integer, yet the call records normally. -/
theorem record_http_request_writes_on_infinite_or_noninteger_input :
    JSNum.isFiniteb JSNum.inf = false
    ∧ (recordHttpRequest none emptyMetrics "GET" "/api/users"
        (JSVal.num (JSNum.num 200)) (JSVal.num JSNum.inf)).registryA.length = 2
    ∧ (recordHttpRequest none emptyMetrics "GET" "/api/users"
        (JSVal.num (JSNum.num 200)) (JSVal.num JSNum.inf)).registryB.length = 2
    ∧ (7 / 2 : ℚ).den = 2
    ∧ (recordHttpRequest none emptyMetrics "GET" "/api/users"
        (JSVal.num (JSNum.num (7 / 2))) (JSVal.num (JSNum.num 0))).registryA.length = 2
    ∧ (recordHttpRequest none emptyMetrics "GET" "/api/users"
        (JSVal.num (JSNum.num (7 / 2))) (JSVal.num (JSNum.num 0))).registryB.length = 2 := by
  refine ⟨by decide, by decide, by decide, by norm_num, ?_, ?_⟩ <;>
    simp [recordHttpRequest, validDuration, validStatusCode, JSNum.isNaNb, JSNum.ltZero,
      emptyMetrics]

/-- C3: submitting a probability outside `[0, 1]` to the random-failure
endpoint yields a 400 response and leaves the chaos state (hence
anything `getStatus` can observe) completely unchanged, while any
probability in `[0, 1]` is stored as the service's policy
(`failureRate = p`, together with the submitted `enabled` flag). -/
theorem configure_random_failure_rejects_out_of_range_and_stores_in_range
    (st : ChaosState) (service : String) (p : ℚ) (enabled : Bool)
    (hwf : ∀ pr ∈ st.config, pr.2 < st.heap.length) :
    ((p < 0 ∨ 1 < p) →
        configureRandomFailureEndpoint ⟨some service, none, some p, some enabled⟩ st
          = (400, st))
    ∧ (0 ≤ p → p ≤ 1 →
        (configureRandomFailureEndpoint ⟨some service, none, some p, some enabled⟩ st).1 = 200
        ∧ (cfgView (configureRandomFailureEndpoint
              ⟨some service, none, some p, some enabled⟩ st).2 service).map
            (fun c => (c.failureRate, c.enabled)) = some (some p, enabled)) := by
  constructor
  · intro h
    simp only [configureRandomFailureEndpoint, Option.getD_some]
    rw [if_pos (by exact h.imp id id)]
  · intro h0 h1
    have hcond : ¬ (p < 0 ∨ p > 1) := by
      push_neg
      exact ⟨h0, h1⟩
    simp only [configureRandomFailureEndpoint, Option.getD_some]
    rw [if_neg hcond]
    refine ⟨rfl, ?_⟩
    unfold configureFailureRate
    cases href : alookup st.config service with
    | some r =>
        have hr : r < st.heap.length := hwf _ (alookup_mem href)
        simp [cfgView, href, List.getElem?_set_self, hr]
    | none =>
        simp only [cfgView]
        rw [alookup_append_of_none _ href]
        simp [alookup, getD_append_length]

/-- Witness for C3: at the initial state, probability `3/2` is rejected
with 400 and no mutation, while probability `1/3` is stored for the
`database` service with `enabled = true`. -/
theorem configure_random_failure_rejects_out_of_range_witness :
    configureRandomFailureEndpoint ⟨some "database", none, some (3/2), some true⟩
        initialChaosState = (400, initialChaosState)
    ∧ (configureRandomFailureEndpoint ⟨some "database", none, some (1/3), some true⟩
        initialChaosState).1 = 200
    ∧ (cfgView (configureRandomFailureEndpoint
          ⟨some "database", none, some (1/3), some true⟩ initialChaosState).2 "database").map
        (fun c => (c.failureRate, c.enabled)) = some (some (1/3), true) := by
  refine ⟨?_, ?_, ?_⟩
  · exact (configure_random_failure_rejects_out_of_range_and_stores_in_range
      initialChaosState "database" (3/2) true (by decide)).1 (Or.inr (by norm_num))
  · exact ((configure_random_failure_rejects_out_of_range_and_stores_in_range
      initialChaosState "database" (1/3) true (by decide)).2 (by norm_num) (by norm_num)).1
  · exact ((configure_random_failure_rejects_out_of_range_and_stores_in_range
      initialChaosState "database" (1/3) true (by decide)).2 (by norm_num) (by norm_num)).2

/-- Counterexample to C4 as stated: with the `database` service
configured `enabled = true` but latency `0`, a call
`injectLatency('database', 500)` with a nonzero override is still the
early-return no-op — the claim says a nonzero override makes the call
delay. -/
theorem inject_latency_ignores_override_when_latency_zero :
    cfgView (configureLatency initialChaosState "database" 0 true) "database"
      = some ⟨some 0, some 0, true⟩
    ∧ injectLatency (configureLatency initialChaosState "database" 0 true)
        "database" (some 500) = none := by
  decide

/-- C4 (amended): `injectLatency(service, override?)` on a configured
service is a no-op (early return, no delay) unless the configuration
has `enabled = true` AND the configured latency is nonzero — a nonzero
override alone never activates it; when it is not a no-op, it suspends
for the override duration if that is given and nonzero, else for the
configured latency (`duration || config.latency`).  An unconfigured
service is always a no-op. -/
theorem inject_latency_noop_unless_enabled_and_config_latency_nonzero
    (st : ChaosState) (service : String) (dur : Option ℚ) (q : ℚ)
    (r : ℕ) (cfg : ServiceConfig)
    (href : alookup st.config service = some r)
    (hcfg : st.heap.getD r defaultConfig = cfg) :
    (cfg.enabled = false → injectLatency st service dur = none)
    ∧ (cfg.latency = some 0 → injectLatency st service dur = none)
    ∧ (cfg.enabled = true → cfg.latency ≠ some 0 → q ≠ 0 →
        injectLatency st service (some q) = some (some q))
    ∧ (cfg.enabled = true → cfg.latency ≠ some 0 →
        injectLatency st service none = some cfg.latency)
    ∧ (cfg.enabled = true → cfg.latency ≠ some 0 →
        injectLatency st service (some 0) = some cfg.latency)
    ∧ (∀ s', alookup st.config s' = none → injectLatency st s' dur = none) := by
  have hu : ∀ d, injectLatency st service d =
      (if !(st.heap.getD r defaultConfig).enabled then none
       else if (st.heap.getD r defaultConfig).latency = some 0 then none
       else some (jsOrDuration d (st.heap.getD r defaultConfig).latency)) := by
    intro d
    unfold injectLatency
    rw [href]
  refine ⟨?_, ?_, ?_, ?_, ?_, ?_⟩
  · intro he
    rw [hu dur, hcfg]
    simp [he]
  · intro hl
    rw [hu dur, hcfg]
    simp [hl]
  · intro he hl hq
    rw [hu (some q), hcfg]
    simp [he, hl, jsOrDuration, hq]
  · intro he hl
    rw [hu none, hcfg]
    simp [he, hl, jsOrDuration]
  · intro he hl
    rw [hu (some 0), hcfg]
    simp [he, hl, jsOrDuration]
  · intro s' hs'
    unfold injectLatency
    rw [hs']

/-- Witness for C4's amended theorem: with `database` configured to
latency `700`, a nonzero override of `500` is used, and without an
override the configured `700` is used. -/
theorem inject_latency_noop_unless_enabled_witness :
    injectLatency (configureLatency initialChaosState "database" 700 true)
        "database" (some 500) = some (some 500)
    ∧ injectLatency (configureLatency initialChaosState "database" 700 true)
        "database" none = some (some 700) := by
  have h := inject_latency_noop_unless_enabled_and_config_latency_nonzero
    (configureLatency initialChaosState "database" 700 true) "database"
    (some 500) 500 0 ⟨some 700, some 0, true⟩ (by decide) (by decide)
  have h2 := inject_latency_noop_unless_enabled_and_config_latency_nonzero
    (configureLatency initialChaosState "database" 700 true) "database"
    none 500 0 ⟨some 700, some 0, true⟩ (by decide) (by decide)
  exact ⟨h.2.2.1 rfl (by decide) (by norm_num),
         h2.2.2.2.1 rfl (by decide)⟩

/-- C5 (evaluating the code at the failing input): calling
`simulateMemoryLeak` a second time while the first simulation's
interval is still running leaves BOTH interval timers active (the
handle is overwritten without a `clearInterval`), and when the first
simulation's stop-timeout then fires it clears the handle — which now
names the second timer — leaving the first timer running with no
remaining reference to cancel it. -/
theorem simulate_memory_leak_stacks_concurrent_timers :
    (simulateMemoryLeak (simulateMemoryLeak initialChaosState)).activeLeakTimers = [0, 1]
    ∧ 2 ≤ (simulateMemoryLeak (simulateMemoryLeak initialChaosState)).activeLeakTimers.length
    ∧ (fireLeakTimeout (simulateMemoryLeak (simulateMemoryLeak
        initialChaosState))).activeLeakTimers = [0] := by
  decide

/-- Counterexample to C6 as stated: `toString` is not one of the four
table entries (it is unrecognized), yet `simulateDatabaseError` does
NOT raise the generic unknown-database-error for it — the JS property
access `errors['toString']` finds the truthy inherited
`Object.prototype.toString`, and that inherited member is what gets
thrown. -/
theorem simulate_database_error_throws_inherited_prototype_member :
    alookup dbErrorTable "toString" = none
    ∧ simulateDatabaseError "toString"
        = Except.error (ThrownValue.inheritedProp "toString")
    ∧ ThrownValue.inheritedProp "toString"
        ≠ ThrownValue.errObj "Unknown database error" := by
  refine ⟨by decide, ?_, by decide⟩
  simp [simulateDatabaseError, dbErrorTable, alookup, objectPrototypeProps]

/-- C6 (amended): `simulateDatabaseError` never returns normally: it
raises the canned error matching the error type from the fixed
four-entry table (connection refused, timeout, deadlock, constraint
violation); for an unrecognized error type that is not the name of an
`Object.prototype` member it raises the generic unknown database
error, but for an unrecognized type that IS such a member name
(`toString`, `constructor`, ...) it throws the truthy inherited member
itself instead of an Error. -/
theorem simulate_database_error_raises_with_prototype_chain
    (errorType : String) :
    (∀ u : Unit, simulateDatabaseError errorType ≠ Except.ok u)
    ∧ simulateDatabaseError "CONNECTION_ERROR"
        = Except.error (ThrownValue.errObj "ECONNREFUSED: Connection refused")
    ∧ simulateDatabaseError "TIMEOUT"
        = Except.error (ThrownValue.errObj "ETIMEDOUT: Query timeout")
    ∧ simulateDatabaseError "DEADLOCK"
        = Except.error (ThrownValue.errObj "Deadlock detected")
    ∧ simulateDatabaseError "CONSTRAINT_VIOLATION"
        = Except.error (ThrownValue.errObj "Unique constraint violation")
    ∧ (alookup dbErrorTable errorType = none → errorType ∉ objectPrototypeProps →
        simulateDatabaseError errorType
          = Except.error (ThrownValue.errObj "Unknown database error"))
    ∧ (alookup dbErrorTable errorType = none → errorType ∈ objectPrototypeProps →
        simulateDatabaseError errorType
          = Except.error (ThrownValue.inheritedProp errorType)) := by
  refine ⟨?_,
    by simp [simulateDatabaseError, dbErrorTable, alookup],
    by simp [simulateDatabaseError, dbErrorTable, alookup],
    by simp [simulateDatabaseError, dbErrorTable, alookup],
    by simp [simulateDatabaseError, dbErrorTable, alookup], ?_, ?_⟩
  · intro u
    simp only [simulateDatabaseError]
    rcases alookup dbErrorTable errorType with _ | msg
    · by_cases hmem : errorType ∈ objectPrototypeProps <;> simp [hmem]
    · simp
  · intro hnone hnotin
    simp [simulateDatabaseError, hnone, hnotin]
  · intro hnone hin
    simp [simulateDatabaseError, hnone, hin]

/-- Witness for C6's amended theorem at concrete inputs: `FOO` is
neither a table entry nor a prototype member and raises the generic
unknown database error. -/
theorem simulate_database_error_raises_with_prototype_chain_witness :
    alookup dbErrorTable "FOO" = none
    ∧ "FOO" ∉ objectPrototypeProps
    ∧ simulateDatabaseError "FOO"
        = Except.error (ThrownValue.errObj "Unknown database error") :=
  ⟨by decide, by decide,
   (simulate_database_error_raises_with_prototype_chain "FOO").2.2.2.2.2.1
     (by decide) (by decide)⟩

/-- C7: for any random draw in `[0, 1)`, `injectRandomFailure` returns
true whenever the service's policy is `failureRate = 1, enabled = true`,
returns false whenever `failureRate = 0`, and returns false whenever
`enabled = false` — in all three cases independently of the draw. -/
theorem inject_random_failure_deterministic_at_extremes
    (st : ChaosState) (service : String) (r : ℚ)
    (ref : ℕ) (cfg : ServiceConfig)
    (h0 : 0 ≤ r) (h1 : r < 1)
    (href : alookup st.config service = some ref)
    (hcfg : st.heap.getD ref defaultConfig = cfg) :
    (cfg.enabled = true → cfg.failureRate = some 1 →
        injectRandomFailure st service r = true)
    ∧ (cfg.failureRate = some 0 → injectRandomFailure st service r = false)
    ∧ (cfg.enabled = false → injectRandomFailure st service r = false) := by
  have hu : injectRandomFailure st service r =
      (if !(st.heap.getD ref defaultConfig).enabled then false
       else if (st.heap.getD ref defaultConfig).failureRate = some 0 then false
       else jsLtOpt r (st.heap.getD ref defaultConfig).failureRate) := by
    unfold injectRandomFailure
    rw [href]
  refine ⟨?_, ?_, ?_⟩
  · intro he hr1
    rw [hu, hcfg]
    simp [he, hr1, jsLtOpt, h1]
  · intro hr0
    rw [hu, hcfg]
    simp [hr0]
  · intro he
    rw [hu, hcfg]
    simp [he]

/-- Witness for C7: with `failureRate = 1, enabled = true` the draw
`2/3` triggers a failure; with `failureRate = 0, enabled = true`, and
at the initial (disabled) configuration, the same draw does not. -/
theorem inject_random_failure_deterministic_witness :
    injectRandomFailure (configureFailureRate initialChaosState "database" 1 true)
        "database" (2/3) = true
    ∧ injectRandomFailure (configureFailureRate initialChaosState "database" 0 true)
        "database" (2/3) = false
    ∧ injectRandomFailure initialChaosState "database" (2/3) = false := by
  refine ⟨?_, ?_, ?_⟩
  · exact (inject_random_failure_deterministic_at_extremes
      (configureFailureRate initialChaosState "database" 1 true) "database" (2/3)
      0 ⟨some 0, some 1, true⟩ (by norm_num) (by norm_num)
      (by decide) (by decide)).1 rfl rfl
  · exact (inject_random_failure_deterministic_at_extremes
      (configureFailureRate initialChaosState "database" 0 true) "database" (2/3)
      0 ⟨some 0, some 0, true⟩ (by norm_num) (by norm_num)
      (by decide) (by decide)).2.1 rfl
  · exact (inject_random_failure_deterministic_at_extremes
      initialChaosState "database" (2/3)
      0 ⟨some 0, some 0, false⟩ (by norm_num) (by norm_num)
      (by decide) (by decide)).2.2 rfl

/-- C8: for every error reaching the terminal error handler (with a
declared status or code, when present, being a real value — nonzero
status, nonempty code string), the response status is the error's
declared status (`statusCode`, else `status`) if present, else 500;
the body always has `success = false` and a message; the `code` field
is present exactly when the error carries one; and in a production
build the stack trace is never included. -/
theorem error_handler_status_and_uniform_body
    (env : String) (err : ErrObj)
    (hsc : err.statusCode ≠ some 0)
    (hst : err.status ≠ some 0)
    (hcode : err.code ≠ some "") :
    (errorHandler env err).success = false
    ∧ (errorHandler env err).status = (err.statusCode.getD (err.status.getD 500))
    ∧ (errorHandler env err).code = err.code
    ∧ (env = "production" → (errorHandler env err).stack = none)
    ∧ (err.message ≠ "" → (errorHandler env err).message = err.message) := by
  refine ⟨rfl, ?_, ?_, ?_, ?_⟩
  · cases hs1 : err.statusCode with
    | some n =>
        have hn : n ≠ 0 := by
          intro h
          exact hsc (by rw [hs1, h])
        simp [errorHandler, truthyNat, hs1, hn]
    | none =>
        cases hs2 : err.status with
        | some m =>
            have hm : m ≠ 0 := by
              intro h
              exact hst (by rw [hs2, h])
            simp [errorHandler, truthyNat, hs1, hs2, hm]
        | none =>
            simp [errorHandler, truthyNat, hs1, hs2]
  · cases hc : err.code with
    | some c =>
        have hcne : c ≠ "" := by
          intro h
          exact hcode (by rw [hc, h])
        simp [errorHandler, truthyStr, hc, hcne]
    | none =>
        simp [errorHandler, truthyStr, hc]
  · intro henv
    subst henv
    simp [errorHandler]
  · intro hm
    simp [errorHandler, hm]

/-- Witness for C8: a 400 validation error with a code, handled in
production, yields status 400, `success = false`, the carried code,
and no stack trace. -/
theorem error_handler_status_and_uniform_body_witness :
    (errorHandler "production"
        ⟨some "ValidationError", "Invalid user id", "trace-lines",
          some 400, none, some "ERR_VALIDATION"⟩).success = false
    ∧ (errorHandler "production"
        ⟨some "ValidationError", "Invalid user id", "trace-lines",
          some 400, none, some "ERR_VALIDATION"⟩).status = 400
    ∧ (errorHandler "production"
        ⟨some "ValidationError", "Invalid user id", "trace-lines",
          some 400, none, some "ERR_VALIDATION"⟩).code = some "ERR_VALIDATION"
    ∧ (errorHandler "production"
        ⟨some "ValidationError", "Invalid user id", "trace-lines",
          some 400, none, some "ERR_VALIDATION"⟩).stack = none := by
  have h := error_handler_status_and_uniform_body "production"
    ⟨some "ValidationError", "Invalid user id", "trace-lines",
      some 400, none, some "ERR_VALIDATION"⟩
    (by decide) (by decide) (by decide)
  exact ⟨h.1, h.2.1, h.2.2.1, h.2.2.2.1 rfl⟩

/-- Counterexample to C9 as stated: a status returned by `getStatus`
at the initial state shows the `database` entry change under a later
`configureLatency('database', 500, true)` — the snapshot's entries
alias the live config objects, so the previously returned status is
NOT unchanged. -/
theorem get_status_snapshot_sees_later_mutation :
    statusView (getStatus initialChaosState) initialChaosState.heap
      = [("database", ⟨some 0, some 0, false⟩), ("api", ⟨some 0, some 0, false⟩)]
    ∧ statusView (getStatus initialChaosState)
        (configureLatency initialChaosState "database" 500 true).heap
      = [("database", ⟨some 500, some 0, true⟩), ("api", ⟨some 0, some 0, false⟩)]
    ∧ statusView (getStatus initialChaosState)
        (configureLatency initialChaosState "database" 500 true).heap
      ≠ statusView (getStatus initialChaosState) initialChaosState.heap := by
  decide

/-- C9 (amended): `getStatus` returns a fresh top-level object whose
key set is fixed at call time, but whose entries alias the live
per-service config objects.  Hence a subsequent `configureLatency` or
`configureFailureRate` for a service present in the snapshot IS
visible through the previously returned status (its entry shows the
newly stored fields), while configuring a service absent from the
snapshot leaves the old status's view entirely unchanged (the new
service never appears in it). -/
theorem get_status_is_shallow_snapshot
    (st : ChaosState) (service : String) (d p : ℚ) (e : Bool)
    (hwf : ∀ pr ∈ st.config, pr.2 < st.heap.length) :
    ((statusView (getStatus st) (configureLatency st service d e).heap).map Prod.fst
        = (getStatus st).map Prod.fst)
    ∧ (alookup st.config service = none →
        statusView (getStatus st) (configureLatency st service d e).heap
          = statusView (getStatus st) st.heap)
    ∧ (∀ r, alookup st.config service = some r →
        alookup (statusView (getStatus st) (configureLatency st service d e).heap) service
          = some { st.heap.getD r defaultConfig with latency := some d, enabled := e })
    ∧ (alookup st.config service = none →
        statusView (getStatus st) (configureFailureRate st service p e).heap
          = statusView (getStatus st) st.heap)
    ∧ (∀ r, alookup st.config service = some r →
        alookup (statusView (getStatus st) (configureFailureRate st service p e).heap) service
          = some { st.heap.getD r defaultConfig with failureRate := some p, enabled := e }) := by
  refine ⟨?_, ?_, ?_, ?_, ?_⟩
  · simp [statusView, getStatus]
  · intro hnone
    unfold configureLatency
    rw [hnone]
    unfold statusView getStatus
    apply List.map_congr_left
    intro a ha
    have hlt : a.2 < st.heap.length := hwf _ ha
    rw [getD_append_left _ _ _ _ hlt]
  · intro r href
    unfold configureLatency
    rw [href]
    have hr : r < st.heap.length := hwf _ (alookup_mem href)
    rw [alookup_statusView, getStatus, href]
    simp [List.getElem?_set_self, hr]
  · intro hnone
    unfold configureFailureRate
    rw [hnone]
    unfold statusView getStatus
    apply List.map_congr_left
    intro a ha
    have hlt : a.2 < st.heap.length := hwf _ ha
    rw [getD_append_left _ _ _ _ hlt]
  · intro r href
    unfold configureFailureRate
    rw [href]
    have hr : r < st.heap.length := hwf _ (alookup_mem href)
    rw [alookup_statusView, getStatus, href]
    simp [List.getElem?_set_self, hr]

/-- Witness for C9's amended theorem: through a status taken at the
initial state, a later `configureLatency('database', 500, true)` is
visible — the `database` entry reads back with latency 500 and
enabled. -/
theorem get_status_is_shallow_snapshot_witness :
    alookup (statusView (getStatus initialChaosState)
        (configureLatency initialChaosState "database" 500 true).heap) "database"
      = some ⟨some 500, some 0, true⟩ := by
  have h := (get_status_is_shallow_snapshot initialChaosState "database" 500 0 true
    (by decide)).2.2.1 0 (by decide)
  simpa using h

/-- C10: a POST with an empty body to either chaos configuration
endpoint is not rejected — the controller fills the missing fields
with enabling defaults (`service = 'database'`, `duration = 1000`,
`probability = 0.5`, `enabled = true`), answers 200, and turns the
corresponding chaos injection on for the `database` service. -/
theorem chaos_endpoints_empty_body_enables_database_defaults :
    (configureLatencyEndpoint emptyBody initialChaosState).1 = 200
    ∧ cfgView (configureLatencyEndpoint emptyBody initialChaosState).2 "database"
        = some ⟨some 1000, some 0, true⟩
    ∧ (configureRandomFailureEndpoint emptyBody initialChaosState).1 = 200
    ∧ cfgView (configureRandomFailureEndpoint emptyBody initialChaosState).2 "database"
        = some ⟨some 0, some (1/2), true⟩ := by
  refine ⟨rfl, ?_, ?_, ?_⟩
  · simp [cfgView, configureLatencyEndpoint, configureLatency, initialChaosState,
      emptyBody, alookup]
  · norm_num [configureRandomFailureEndpoint, emptyBody]
  · norm_num [cfgView, configureRandomFailureEndpoint, configureFailureRate,
      initialChaosState, emptyBody, alookup]
